import Mathlib

/-!
# tokopedia/panics: panic capture, circuit-breaker gate and publication

A shallow embedding of `panics.go`.  Package-level variables become the fields of
`State`; everything the library does to the outside world (goroutines it starts,
`http.Error` calls, writes to standard error) is appended, in order, to `State.out`.
A Go function that may panic returns an `Outcome`.  The clock (`time.Now()`) and the
stack dump (`debug.Stack()`) are read from a `Runtime` value handed to each call.
-/

namespace Panics

/-! ## Go values -/

/-- A Go `error` value.  `errorString` is what `errors.New` builds, `ErrBreakerOpen` is the
breaker package's sentinel (compared by identity in `recoveryBreak`), `custom` is any other
implementation of the `error` interface. -/
inductive GoError
  | errorString (s : String)
  | ErrBreakerOpen
  | custom (typ : String) (msg : String)
  deriving DecidableEq, Repr

/-- The `Error()` method. -/
def GoError.Error : GoError → String
  | .errorString s => s
  | .ErrBreakerOpen => "circuit breaker is open"
  | .custom _ msg => msg

/-- The call `errors.New(text)`. -/
def errors.New (text : String) : GoError := .errorString text

/-- The global `ErrorPanic`. -/
def ErrorPanic : GoError := errors.New "Panic happened"

/-- A non-nil value of type `interface{}`, as handed to `panic` and returned by `recover`:
a `string`, a value implementing `error`, or a value of any other dynamic type
(`int` for the integers, `other` for the rest).  A nil interface is `none : Option Value`;
a panic raised with a nil value is not represented. -/
inductive Value
  | string (s : String)
  | error (e : GoError)
  | int (n : Int)
  | other (typ : String) (repr : String)
  deriving DecidableEq, Repr

/-- How a call of a Go function ends: it returns its results, or it panics with a value. -/
inductive Outcome (α : Type)
  | returned (a : α)
  | panicked (v : Value)
  deriving DecidableEq, Repr

/-- The builtin `recover()` called in a deferred function: it yields the value of the panic in
flight (nil when there is none) and stops the panic, so that the surrounding function
returns normally with the zero values `zero` of its unnamed results. -/
def recover {α : Type} (o : Outcome α) (zero : α) : Option Value × Outcome α :=
  match o with
  | .returned a => (none, .returned a)
  | .panicked v => (some v, .returned zero)

/-- What the Go runtime answers during one call: `time.Now()` in nanoseconds and the bytes
of `debug.Stack()` (nil is `none`). -/
structure Runtime where
  now : Nat
  stack : Option String
  deriving DecidableEq, Repr

/-- The constant `time.Minute`, in nanoseconds. -/
def Minute : Nat := 60 * 1000000000

/-! ## The circuit breaker -/

/-- The three states of the breaker (`closed`, `open`, `halfOpen` in the breaker package). -/
inductive BreakerState
  | closed
  | open_
  | halfOpen
  deriving DecidableEq, Repr

/-- Modelled from the spec: the circuit breaker `breaker.Breaker` of the imported package
`github.com/eapache/go-resiliency/breaker`, which is not among the sources.  Spec section 3:
it is parameterised by an error threshold, a success threshold and an open duration; closed:
all attempts execute; open: all attempts are short-circuited for the open duration, then it
turns half-open; half-open: attempts probe, a failure re-opens it and `successThreshold`
consecutive successes close it.  `openedAt` stands for the timer started on opening. -/
structure Breaker where
  errorThreshold : Nat
  successThreshold : Nat
  timeout : Nat
  state : BreakerState
  errors : Nat
  successes : Nat
  lastError : Nat
  openedAt : Nat
  deriving DecidableEq, Repr

/-- Modelled from the spec: `breaker.New`, a breaker that starts closed with no recorded
failure. -/
def breaker.New (errorThreshold successThreshold timeout : Nat) : Breaker :=
  ⟨errorThreshold, successThreshold, timeout, .closed, 0, 0, 0, 0⟩

/-- Modelled from the spec: a state change of the breaker resets both counters. -/
def Breaker.changeState (b : Breaker) (newState : BreakerState) : Breaker :=
  { b with errors := 0, successes := 0, state := newState }

/-- Modelled from the spec: opening the breaker starts the timer of the open duration. -/
def Breaker.openBreaker (b : Breaker) (now : Nat) : Breaker :=
  { b.changeState .open_ with openedAt := now }

/-- Modelled from the spec: closing the breaker. -/
def Breaker.closeBreaker (b : Breaker) : Breaker :=
  b.changeState .closed

/-- Modelled from the spec: the timer of an open breaker; once the open duration has passed
the breaker is half-open. -/
def Breaker.timer (b : Breaker) (now : Nat) : Breaker :=
  if b.state = .open_ ∧ b.openedAt + b.timeout ≤ now then b.changeState .halfOpen else b

/-- Modelled from the spec: bookkeeping of one executed attempt.  A success counts only while
half-open; a failure first forgets failures older than the window `timeout`, then counts
(closed, opening at the error threshold) or re-opens (half-open). -/
def Breaker.processResult (b : Breaker) (now : Nat) (result : Option GoError) : Breaker :=
  match result with
  | none =>
    if b.state = .halfOpen then
      let b := { b with successes := b.successes + 1 }
      if b.successes = b.successThreshold then b.closeBreaker else b
    else b
  | some _ =>
    let b := if b.errors > 0 ∧ now > b.lastError + b.timeout then { b with errors := 0 } else b
    match b.state with
    | .closed =>
      let b := { b with errors := b.errors + 1 }
      if b.errors = b.errorThreshold then b.openBreaker now else { b with lastError := now }
    | .halfOpen => b.openBreaker now
    | .open_ => b

/-- Modelled from the spec: an attempt that is executed; a success on a closed breaker
leaves the breaker as it is. -/
def Breaker.doWork (b : Breaker) (now : Nat) (state : BreakerState)
    (work : Unit → Option GoError) : Breaker × Option GoError :=
  let result := work ()
  if result = none ∧ state = .closed then (b, none)
  else (b.processResult now result, result)

/-- Modelled from the spec: `Run`, an attempt through the breaker.  An open breaker refuses
with `ErrBreakerOpen` without running `work`; otherwise `work` runs, its result is recorded
and passed along. -/
def Breaker.Run (b : Breaker) (now : Nat) (work : Unit → Option GoError) :
    Breaker × Option GoError :=
  let b := b.timer now
  if b.state = .open_ then (b, some .ErrBreakerOpen) else b.doWork now b.state work

/-- The breaker refuses attempts at time `now`: it is open and its open duration has not
passed. -/
def Breaker.isOpen (b : Breaker) (now : Nat) : Bool :=
  decide (b.state = .open_ ∧ ¬ (b.openedAt + b.timeout ≤ now))

/-! ## Package state -/

/-- The interface `DatadogClient`; a client is known by its name only. -/
structure DatadogClient where
  name : String
  deriving DecidableEq, Repr

/-- A goroutine started by the library. -/
inductive Task
  | postToSlack (text snip : String)
  | fileSink (filepath text snip : String)
  | datadogCount (client : DatadogClient) (name : String) (value : Int) (tags : List String)
      (rate : Nat)
  | signalListener
  deriving DecidableEq, Repr

/-- What the library does to the outside world: a goroutine it starts, a call of
`http.Error` on the response writer, the panic line and the stack it prints on standard
error.  `user` records an action of the caller's own code, such as the counters the test
closures increment. -/
inductive Effect
  | go (t : Task)
  | httpError (error : String) (code : Nat)
  | stderrPanic (rcv : GoError)
  | printStack
  | user (what : String)
  deriving DecidableEq, Repr

/-- The type `Options`.  `Tags` lists the entries of the map in the order the `range` loop
of `SetOptions` visits them. -/
structure Options where
  Env : String
  Filepath : String
  SentryDSN : String
  SlackWebhookURL : String
  SlackChannel : String
  Tags : List (String × String)
  CustomMessage : String
  DontLetMeDie : Bool
  DatadogClient : Option DatadogClient
  ServiceName : String
  deriving DecidableEq, Repr

/-- The package-level variables, and `out`: the effects of the library so far, oldest first. -/
structure State where
  env : String
  filepath : String
  slackWebhookURL : String
  slackChannel : String
  tagString : String
  capturedBadDeployment : Bool
  customMessage : String
  cb : Option Breaker
  datadogClient : Option DatadogClient
  serviceName : String
  out : List Effect
  deriving DecidableEq, Repr

/-- The variable `datadogMetricName`. -/
def datadogMetricName : String := "panic.capture_panic"

/-- The constant `http.StatusInternalServerError`. -/
def http.StatusInternalServerError : Nat := 500

/-- Append one effect to the record. -/
def State.emit (s : State) (e : Effect) : State :=
  { s with out := s.out ++ [e] }

/-- A Go function run against the package state. -/
abbrev Func (α : Type) := State → State × Outcome α

/-- An inbound `*http.Request`, known by what `httputil.DumpRequest(r, true)` yields for it
(nil, that is `none`, when the dump fails). -/
structure Request where
  dump : Option String
  deriving DecidableEq, Repr

/-! ## Normalisation, the breaker gate -/

/-- The function `recovery` (panics.go, lines 300-313). -/
def recovery (r : Option Value) : Option GoError :=
  match r with
  | none => none
  | some (.string t) => some (errors.New t)
  | some (.error t) => some t
  | some _ => some (errors.New "Unknown error")

/-- The function `panicRecover` (lines 277-285). -/
def panicRecover (rt : Runtime) (rc : Option Value) (s : State) : State × Option GoError :=
  match s.cb with
  | some cb =>
    let (cb, r) := cb.Run rt.now (fun _ => recovery rc)
    ({ s with cb := some cb }, r)
  | none => (s, recovery rc)

/-- The function `recoveryBreak` (lines 287-298). -/
def recoveryBreak (rt : Runtime) (s : State) : State × Bool :=
  match s.cb with
  | none => (s, false)
  | some cb =>
    let (cb, err) := cb.Run rt.now (fun _ => none)
    ({ s with cb := some cb }, decide (err = some GoError.ErrBreakerOpen))

/-! ## Publication -/

/-- The primary text `publishError` builds in its buffer (lines 320-333).  Strings are
sequences of characters here, so `len(tagString) > 0` is a test on the number of these. -/
def primaryText (s : State) (errs : GoError) (reqBody : Option String) : String :=
  let buffer := "[" ++ s.env ++ "] *" ++ errs.Error ++ "*"
  let buffer := if s.tagString.length > 0 then buffer ++ (" | " ++ s.tagString) else buffer
  let buffer := if s.customMessage ≠ "" then buffer ++ ("\n" ++ s.customMessage ++ "\n") else buffer
  match reqBody with
  | some body => buffer ++ (" ```" ++ body ++ "``` ")
  | none => buffer

/-- The stack snippet of `publishError` (lines 335-337). -/
def stackSnippet (errorStack : Option String) (withStackTrace : Bool) : String :=
  match errorStack with
  | some st => if withStackTrace then "```\n" ++ st ++ "```" else ""
  | none => ""

/-- The goroutines `publishError` starts for the enabled sinks (lines 339-358), in the order
it starts them.  The file goroutine reads the variable `filepath` when it runs; here it is
read when the goroutine is started. -/
def sinkTasks (s : State) (text snip : String) : List Effect :=
  (if s.slackWebhookURL ≠ "" then [Effect.go (.postToSlack text snip)] else []) ++
  (if s.filepath ≠ "" then [Effect.go (.fileSink s.filepath text snip)] else []) ++
  (match s.datadogClient with
   | some client =>
     [Effect.go (.datadogCount client datadogMetricName 1
        ["service:" ++ s.serviceName, "env:" ++ s.env] 1)]
   | none => [])

/-- The function `publishError` (lines 315-359). -/
def publishError (rt : Runtime) (errs : GoError) (reqBody : Option String)
    (withStackTrace : Bool) (s : State) : State :=
  let errorStack := rt.stack
  let text := primaryText s errs reqBody
  let snip := stackSnippet errorStack withStackTrace
  { s with out := s.out ++ sinkTasks s text snip }

/-- The files of the host and the library's diagnostic log.  `files p` is the content of the
file at `p` (empty when there is none: the sink opens with `O_CREATE`), `refuses p` tells
whether `os.OpenFile` fails on `p`. -/
structure FileSystem where
  files : String → String
  refuses : String → Bool
  log : List String

/-- The method `Write` on a file opened with `O_APPEND`. -/
def FileSystem.write (fs : FileSystem) (fp data : String) : FileSystem :=
  { fs with files := fun p => if p = fp then fs.files p ++ data else fs.files p }

/-- The body of the file goroutine of `publishError` (lines 343-353). -/
def fileSink (filepath text snip : String) (fs : FileSystem) : FileSystem :=
  let fp := filepath ++ "/panics.log"
  if fs.refuses fp then
    { fs with log := fs.log ++ ["[panics] failed to open file " ++ fp] }
  else
    let fs := fs.write fp text
    fs.write fp (snip ++ "\r\n")

/-! ## Configuration -/

/-- The function `CaptureBadDeployment` (lines 191-206): the listener goroutine is started
unless the flag says it was. -/
def CaptureBadDeployment (s : State) : State :=
  if !s.capturedBadDeployment then
    let s := { s with capturedBadDeployment := true }
    s.emit (.go .signalListener)
  else s

/-- What the listener goroutine does on each `SIGUSR1` (line 201). -/
def onDeploymentSignal (rt : Runtime) (s : State) : State :=
  publishError rt (errors.New "Failed to deploy an application") none false s

/-- The call `strings.Join(elems, sep)`. -/
def strings.Join (elems : List String) (sep : String) : String :=
  sep.intercalate elems

/-- The function `SetOptions` (lines 66-88). -/
def SetOptions (o : Options) (s : State) : State :=
  let s := { s with filepath := o.Filepath, slackWebhookURL := o.SlackWebhookURL,
                    slackChannel := o.SlackChannel }
  let s := { s with env := o.Env }
  let tmp := o.Tags.map (fun kv => "`" ++ kv.1 ++ ": " ++ kv.2 ++ "`")
  let s := { s with tagString := strings.Join tmp " | " }
  let s := { s with customMessage := o.CustomMessage }
  let s := { s with datadogClient := o.DatadogClient, serviceName := o.ServiceName }
  let s := if o.DontLetMeDie then { s with cb := none } else s
  CaptureBadDeployment s

/-- The function `init` (lines 90-94); `TKPENV` is the value of that environment variable.
Every other package-level variable has its zero value. -/
def init (TKPENV : String) : State :=
  { env := TKPENV, filepath := "", slackWebhookURL := "", slackChannel := "", tagString := "",
    capturedBadDeployment := false, customMessage := "",
    cb := some (breaker.New 3 2 (Minute * 1)), datadogClient := none, serviceName := "",
    out := [] }

/-! ## Bare entry points -/

/-- The loop of `Capture` and `CaptureWithStackTrace` that builds `tmp` (lines 179-186). -/
def joinMessage (message : List String) : String :=
  message.enum.foldl (fun tmp iv => if iv.1 = 0 then tmp ++ iv.2 else tmp ++ ("\n\n" ++ iv.2)) ""

/-- The function `Capture` (lines 164-175). -/
def Capture (rt : Runtime) (err : String) (message : List String) (s : State) : State :=
  let tmp := joinMessage message
  publishError rt (errors.New err) (some tmp) false s

/-- The function `CaptureWithStackTrace` (lines 178-189). -/
def CaptureWithStackTrace (rt : Runtime) (err : String) (message : List String) (s : State) :
    State :=
  let tmp := joinMessage message
  publishError rt (errors.New err) (some tmp) true s

/-! ## Decorators -/

/-- The call `http.Error(w, error, code)`, recorded with its arguments. -/
def http.Error (error : String) (code : Nat) (s : State) : State :=
  s.emit (.httpError error code)

/-- The call `httputil.DumpRequest(r, true)`. -/
def httputil.DumpRequest (r : Request) : Option String := r.dump

/-- The function `CaptureHandler` (lines 97-111): `h` is the inner handler, `rt` what the
runtime answers while the deferred function runs. -/
def CaptureHandler (h : Request → Func Unit) (rt : Runtime) (r : Request) : Func Unit := fun s =>
  let request := httputil.DumpRequest r
  let (s, o) := h r s
  let (s, tripped) := recoveryBreak rt s
  if !tripped then
    let (rc, o) := recover o ()
    let (s, r) := panicRecover rt rc s
    match r with
    | some r =>
      let s := publishError rt r request true s
      let s := http.Error r.Error http.StatusInternalServerError s
      (s, o)
    | none => (s, o)
  else (s, o)

/-- The function `CaptureHTTPRouterHandler` (lines 114-128); `ps` are the router's
parameters. -/
def CaptureHTTPRouterHandler (h : Request → List (String × String) → Func Unit) (rt : Runtime)
    (r : Request) (ps : List (String × String)) : Func Unit := fun s =>
  let request := httputil.DumpRequest r
  let (s, o) := h r ps s
  let (s, tripped) := recoveryBreak rt s
  if !tripped then
    let (rc, o) := recover o ()
    let (s, r) := panicRecover rt rc s
    match r with
    | some r =>
      let s := publishError rt r request true s
      let s := http.Error r.Error http.StatusInternalServerError s
      (s, o)
    | none => (s, o)
  else (s, o)

/-- The function `CaptureNegroniHandler` (lines 131-143). -/
def CaptureNegroniHandler (rt : Runtime) (r : Request) (next : Request → Func Unit) :
    Func Unit := fun s =>
  let request := httputil.DumpRequest r
  let (s, o) := next r s
  let (s, tripped) := recoveryBreak rt s
  if !tripped then
    let (rc, o) := recover o ()
    let (s, r) := panicRecover rt rc s
    match r with
    | some r =>
      let s := publishError rt r request true s
      let s := http.Error r.Error http.StatusInternalServerError s
      (s, o)
    | none => (s, o)
  else (s, o)

/-- The function `CaptureGinHandler` (lines 146-161): `next` is `c.Next()`, the rest of the
chain, and `r` is `c.Request`. -/
def CaptureGinHandler (rt : Runtime) (r : Request) (next : Func Unit) : Func Unit := fun s =>
  let request := httputil.DumpRequest r
  let (s, o) := next s
  let (s, tripped) := recoveryBreak rt s
  if !tripped then
    let (rc, o) := recover o ()
    let (s, r) := panicRecover rt rc s
    match r with
    | some r =>
      let s := publishError rt r request true s
      let s := http.Error r.Error http.StatusInternalServerError s
      (s, o)
    | none => (s, o)
  else (s, o)

/-- The function `CaptureNSQConsumer` (lines 209-219): `message` is the queue message and the
handler returns an `error` (nil is `none`). -/
def CaptureNSQConsumer (handler : String → Func (Option GoError)) (rt : Runtime)
    (message : String) : Func (Option GoError) := fun s =>
  let (s, o) := handler message s
  let (rc, o) := recover o none
  let (s, r) := panicRecover rt rc s
  match r with
  | some r =>
    let s := publishError rt r none true s
    (s, o)
  | none => (s, o)

/-- The function `CaptureGoroutine` (lines 224-237). -/
def CaptureGoroutine (handleFn recoveryFn : Func Unit) (rt : Runtime) : Func Unit := fun s =>
  let (s, o) := handleFn s
  let (s, tripped) := recoveryBreak rt s
  if !tripped then
    let (rc, o) := recover o ()
    let (s, rcv) := panicRecover rt rc s
    match rcv with
    | some rcv =>
      let s := s.emit (.stderrPanic rcv)
      let s := s.emit .printStack
      let s := publishError rt rcv none true s
      match recoveryFn s with
      | (s, .returned _) => (s, o)
      | (s, .panicked v) => (s, .panicked v)
    | none => (s, o)
  else (s, o)

/-- The function `HTTPRecoveryMiddleware` (lines 240-260). -/
def HTTPRecoveryMiddleware (next : Request → Func Unit) (rt : Runtime) (r : Request) :
    Func Unit := fun s =>
  let request := httputil.DumpRequest r
  let (s, o) := next r s
  let (s, tripped) := recoveryBreak rt s
  if !tripped then
    let (rc, o) := recover o ()
    let (s, rcv) := panicRecover rt rc s
    match rcv with
    | some rcv =>
      let s := s.emit (.stderrPanic rcv)
      let s := s.emit .printStack
      let s := publishError rt rcv request true s
      let s := http.Error rcv.Error http.StatusInternalServerError s
      (s, o)
    | none => (s, o)
  else (s, o)

/-- The function `UnaryServerInterceptor` (lines 263-275): the handler returns a reply and an
`error`; `req` is the request. -/
def UnaryServerInterceptor (rt : Runtime) (req : String)
    (handler : String → Func (Option String × Option GoError)) :
    Func (Option String × Option GoError) := fun s =>
  let (s, o) := handler req s
  let (s, tripped) := recoveryBreak rt s
  if !tripped then
    let (rc, o) := recover o (none, none)
    let (s, rcv) := panicRecover rt rc s
    match rcv with
    | some rcv =>
      let s := s.emit (.stderrPanic rcv)
      let s := s.emit .printStack
      let s := publishError rt rcv none true s
      (s, o)
    | none => (s, o)
  else (s, o)

/-- The breaker gate refuses at time `now`: a breaker is attached and open. -/
def State.tripped (s : State) (now : Nat) : Bool :=
  match s.cb with
  | some cb => cb.isOpen now
  | none => false

/-- An inner handler that raises `v` and does not itself call into the package, so that it
leaves the package state as it found it. -/
def panicking {α : Type} (v : Value) : Func α := fun s => (s, .panicked v)

/-- The value a call lets escape to its caller: the panic value, or nothing when it
returns. -/
def Outcome.escaped {α : Type} : Outcome α → Option Value
  | .returned _ => none
  | .panicked v => some v

/-- The decorators that consult the breaker through `recoveryBreak` before recovering. -/
inductive Shape
  | handler
  | router
  | negroni
  | gin
  | goroutine
  | middleware
  | unary
  deriving DecidableEq, Repr

/-- One invocation of a decorated handler of shape `sh` whose inner handler raises `v`: the
state it leaves and the value that escapes to the caller.  `recoveryFn` is the callback of
the background-task shape. -/
def Shape.invokePanicking (sh : Shape) (rt : Runtime) (r : Request) (recoveryFn : Func Unit)
    (v : Value) (s : State) : State × Option Value :=
  match sh with
  | .handler =>
    let d := CaptureHandler (fun _ => panicking v) rt r s
    (d.1, d.2.escaped)
  | .router =>
    let d := CaptureHTTPRouterHandler (fun _ _ => panicking v) rt r [] s
    (d.1, d.2.escaped)
  | .negroni =>
    let d := CaptureNegroniHandler rt r (fun _ => panicking v) s
    (d.1, d.2.escaped)
  | .gin =>
    let d := CaptureGinHandler rt r (panicking v) s
    (d.1, d.2.escaped)
  | .goroutine =>
    let d := CaptureGoroutine (panicking v) recoveryFn rt s
    (d.1, d.2.escaped)
  | .middleware =>
    let d := HTTPRecoveryMiddleware (fun _ => panicking v) rt r s
    (d.1, d.2.escaped)
  | .unary =>
    let d := UnaryServerInterceptor rt "" (fun _ => panicking v) s
    (d.1, d.2.escaped)

/-- The first line of a text: what stands before its first newline. -/
def firstLine (t : String) : String :=
  ⟨t.data.takeWhile (fun c => c ≠ '\n')⟩

/-- A text without a newline. -/
abbrev oneLine (t : String) : Prop := ∀ c ∈ t.data, c ≠ '\n'

/-- A call that installs the deployment-failure listener: `SetOptions(o)` or
`CaptureBadDeployment()`. -/
inductive InstallCall
  | setOptions (o : Options)
  | captureBadDeployment

/-- Run one installing call. -/
def InstallCall.run : InstallCall → State → State
  | .setOptions o, s => SetOptions o s
  | .captureBadDeployment, s => CaptureBadDeployment s

/-- Run a sequence of installing calls, first to last. -/
def runCalls (cs : List InstallCall) (s : State) : State :=
  cs.foldl (fun s c => c.run s) s

/-- How many listener goroutines have been started. -/
def listenersStarted (s : State) : Nat :=
  s.out.count (.go .signalListener)

/-! ## The fixtures of panics_test.go -/

/-- An `Options` value with every field zero. -/
def Options.zero : Options :=
  ⟨"", "", "", "", "", [], "", false, none, ""⟩

/-- The state `TestMain` leaves: `SetOptions` with `Env: "development"` and
`Filepath: "example"`, in a process loaded with `TKPENV` unset. -/
def TestMain : State :=
  SetOptions { Options.zero with Env := "development", Filepath := "example" } (init "")

/-- The second work function of `TestCaptureGoroutine`: it counts its call and raises
`"panic here"`. -/
def testHandleFnPanic : Func Unit := fun s =>
  (s.emit (.user "handleFnCalledTimes++"), .panicked (.string "panic here"))

/-- The first work function of `TestCaptureGoroutine`: it counts its call and returns. -/
def testHandleFn : Func Unit := fun s =>
  (s.emit (.user "handleFnCalledTimes++"), .returned ())

/-- The recovery callback of `TestCaptureGoroutine`: it counts its call. -/
def testRecoveryFn : Func Unit := fun s =>
  (s.emit (.user "recoveryFnCalledTimes++"), .returned ())

/-- A runtime for the examples: the clock at `now`, a stack dump `"goroutine 1"`. -/
def testRuntime (now : Nat) : Runtime := ⟨now, some "goroutine 1\n"⟩

/-- A host with no file yet, on which every file can be opened. -/
def emptyDisk : FileSystem := ⟨fun _ => "", fun _ => false, []⟩

/-- The state after consecutive invocations of one decorated handler of shape `sh` whose inner
handler raises each time: `calls` lists, first to last, what the runtime answers during each
invocation and the value raised. -/
def Shape.afterPanics (sh : Shape) (r : Request) (recoveryFn : Func Unit)
    (calls : List (Runtime × Value)) (s : State) : State :=
  calls.foldl (fun s c => (sh.invokePanicking c.1 r recoveryFn c.2 s).1) s

/-- A queue handler that raises `"boom"` on every message. -/
def nsqPanics : String → Func (Option GoError) := fun _ => panicking (.string "boom")

/-- A queue handler that returns nil on every message. -/
def nsqSucceeds : String → Func (Option GoError) := fun _ s => (s, .returned none)

/-- The state of `TestMain` after `CaptureNSQConsumer(nsqPanics)` has handled three messages,
ten seconds apart. -/
def nsqAfterThreePanics : State :=
  (CaptureNSQConsumer nsqPanics (testRuntime 20000000000) "m3"
    (CaptureNSQConsumer nsqPanics (testRuntime 10000000000) "m2"
      (CaptureNSQConsumer nsqPanics (testRuntime 0) "m1" TestMain).1).1).1

/-- The state of `TestMain` after `CaptureGoroutine` has recovered three panics of
`testHandleFnPanic`, ten seconds apart, with the record of effects started afresh. -/
def goroutineAfterThreePanics : State :=
  { (CaptureGoroutine testHandleFnPanic testRecoveryFn (testRuntime 20000000000)
      (CaptureGoroutine testHandleFnPanic testRecoveryFn (testRuntime 10000000000)
        (CaptureGoroutine testHandleFnPanic testRecoveryFn (testRuntime 0) TestMain).1).1).1
    with out := [] }

/-! ## Lemmas on the breaker and the gate -/

theorem Breaker.Run_of_isOpen (b : Breaker) (now : Nat) (work : Unit → Option GoError)
    (h : b.isOpen now = true) : b.Run now work = (b, some .ErrBreakerOpen) := by
  simp only [Breaker.isOpen, decide_eq_true_eq] at h
  simp [Breaker.Run, Breaker.timer, h.1, h.2]

theorem Breaker.timer_not_open (b : Breaker) (now : Nat) (h : b.isOpen now = false) :
    (b.timer now).state ≠ .open_ := by
  simp only [Breaker.isOpen, decide_eq_false_iff_not, not_and, not_not] at h
  unfold Breaker.timer
  split
  · simp [Breaker.changeState]
  · rename_i hn
    intro hs
    exact hn ⟨hs, h hs⟩

theorem Breaker.Run_result (b : Breaker) (now : Nat) (work : Unit → Option GoError)
    (h : b.isOpen now = false) : (b.Run now work).2 = work () := by
  have ht := b.timer_not_open now h
  simp only [Breaker.Run, ht, if_false, Breaker.doWork]
  split
  · rename_i hw
    exact hw.1.symm
  · rfl

theorem Breaker.probe_not_open (b : Breaker) (now : Nat) (h : b.isOpen now = false) :
    ((b.Run now (fun _ => none)).1).isOpen now = false := by
  have ht := b.timer_not_open now h
  have key : ((b.Run now (fun _ => none)).1).state ≠ .open_ := by
    simp only [Breaker.Run, ht, if_false, Breaker.doWork]
    split
    · exact ht
    · simp only [Breaker.processResult]
      split
      · split
        · simp [Breaker.closeBreaker, Breaker.changeState]
        · rename_i hh _
          simp [hh]
      · exact ht
  simp [Breaker.isOpen, key]

theorem tripped_of_closed (s : State) (b : Breaker) (now : Nat) (hcb : s.cb = some b)
    (hb : b.state = .closed) : s.tripped now = false := by
  simp [State.tripped, hcb, Breaker.isOpen, hb]

theorem recoveryBreak_tripped (rt : Runtime) (s : State) (h : s.tripped rt.now = true) :
    recoveryBreak rt s = (s, true) := by
  unfold State.tripped at h
  unfold recoveryBreak
  split at h
  · rename_i cb hcb
    simp only [hcb, Breaker.Run_of_isOpen cb rt.now _ h, decide_True]
    cases s
    simp_all
  · simp at h

/-- With the gate not tripped, the probe of `recoveryBreak` answers false and changes at
most the breaker, and the `panicRecover` that follows returns what `recovery` returns,
again changing at most the breaker. -/
theorem gate_not_tripped (rt : Runtime) (s : State) (h : s.tripped rt.now = false) :
    ∃ c1 : Option Breaker, recoveryBreak rt s = ({ s with cb := c1 }, false) ∧
      ∀ rc, ∃ c2 : Option Breaker,
        panicRecover rt rc { s with cb := c1 } = ({ s with cb := c2 }, recovery rc) := by
  unfold State.tripped at h
  split at h
  · rename_i cb hcb
    refine ⟨some (cb.Run rt.now (fun _ => none)).1, ?_, ?_⟩
    · have h2 := cb.Run_result rt.now (fun _ => none) h
      simp only [recoveryBreak, hcb]
      simp [h2]
    · intro rc
      have h3 := cb.probe_not_open rt.now h
      refine ⟨some (((cb.Run rt.now (fun _ => none)).1).Run rt.now (fun _ => recovery rc)).1, ?_⟩
      simp only [panicRecover]
      rw [Prod.mk.injEq]
      exact ⟨rfl, Breaker.Run_result _ rt.now (fun _ => recovery rc) h3⟩
  · rename_i hcb
    refine ⟨none, ?_, ?_⟩
    · simp only [recoveryBreak, hcb]
      cases s
      simp_all
    · intro rc
      exact ⟨none, by simp [panicRecover]⟩

theorem recovery_some (v : Value) : ∃ e, recovery (some v) = some e := by
  cases v <;> simp [recovery]

/-! ## C1: HTTP-shaped decorators while the breaker is closed -/

/-- Claim C1.  Let the inner handler raise the value `v`, leaving the state `s1` in which the
breaker is attached and closed.  Then each of the five HTTP-shaped decorators
(`CaptureHandler`, `CaptureHTTPRouterHandler`, `CaptureNegroniHandler`, `CaptureGinHandler`,
`HTTPRecoveryMiddleware`) returns to its caller without raising, hands the normalised error
`e` of `v` to the enabled sinks (primary text built from `e` and the request dump, with the
stack snippet), and last calls `http.Error` with the message of `e` and status 500. -/
theorem http_decorators_recover_while_closed (rt : Runtime) (r : Request)
    (ps : List (String × String)) (v : Value) (s s1 : State) (b : Breaker)
    (h : Request → Func Unit) (hp : Request → List (String × String) → Func Unit)
    (next : Func Unit)
    (hh : h r s = (s1, .panicked v)) (hhp : hp r ps s = (s1, .panicked v))
    (hn : next s = (s1, .panicked v))
    (hcb : s1.cb = some b) (hclosed : b.state = .closed) :
    ∃ e, recovery (some v) = some e ∧
      (∀ d ∈ [CaptureHandler h rt r s, CaptureHTTPRouterHandler hp rt r ps s,
               CaptureNegroniHandler rt r h s, CaptureGinHandler rt r next s],
          d.2 = .returned () ∧
          d.1.out = s1.out ++ sinkTasks s1 (primaryText s1 e r.dump) (stackSnippet rt.stack true)
                      ++ [.httpError e.Error 500]) ∧
      (HTTPRecoveryMiddleware h rt r s).2 = .returned () ∧
      (HTTPRecoveryMiddleware h rt r s).1.out =
        s1.out ++ [.stderrPanic e, .printStack]
          ++ sinkTasks s1 (primaryText s1 e r.dump) (stackSnippet rt.stack true)
          ++ [.httpError e.Error 500] := by
  obtain ⟨e, he⟩ := recovery_some v
  obtain ⟨c1, h1, h2⟩ := gate_not_tripped rt s1 (tripped_of_closed s1 b rt.now hcb hclosed)
  obtain ⟨c2, h3⟩ := h2 (some v)
  rw [he] at h3
  refine ⟨e, he, ?_, ?_, ?_⟩
  · intro d hd
    simp only [List.mem_cons, List.mem_singleton, List.not_mem_nil, or_false] at hd
    rcases hd with rfl | rfl | rfl | rfl
    · simp [CaptureHandler, hh, h1, h3, recover, publishError, http.Error, State.emit,
        httputil.DumpRequest, http.StatusInternalServerError, primaryText, sinkTasks]
    · simp [CaptureHTTPRouterHandler, hhp, h1, h3, recover, publishError, http.Error,
        State.emit, httputil.DumpRequest, http.StatusInternalServerError, primaryText, sinkTasks]
    · simp [CaptureNegroniHandler, hh, h1, h3, recover, publishError, http.Error, State.emit,
        httputil.DumpRequest, http.StatusInternalServerError, primaryText, sinkTasks]
    · simp [CaptureGinHandler, hn, h1, h3, recover, publishError, http.Error, State.emit,
        httputil.DumpRequest, http.StatusInternalServerError, primaryText, sinkTasks]
  · simp [HTTPRecoveryMiddleware, hh, h1, h3, recover]
  · simp [HTTPRecoveryMiddleware, hh, h1, h3, recover, publishError, http.Error, State.emit,
      httputil.DumpRequest, http.StatusInternalServerError, primaryText, sinkTasks]

/-- Scenario 7 of the spec on the state of `TestMain`: the inner handler raises the value 42;
each decorator returns, the file sink gets `[development] *Unknown error*` with the request
dump, and `http.Error` is called with `Unknown error` and 500. -/
theorem http_decorators_recover_while_closed_witness :
    (∃ e, recovery (some (.int 42)) = some e ∧
      (∀ d ∈ [CaptureHandler (fun _ => panicking (.int 42)) (testRuntime 0) ⟨some "GET /"⟩ TestMain,
               CaptureHTTPRouterHandler (fun _ _ => panicking (.int 42)) (testRuntime 0)
                 ⟨some "GET /"⟩ [] TestMain,
               CaptureNegroniHandler (testRuntime 0) ⟨some "GET /"⟩
                 (fun _ => panicking (.int 42)) TestMain,
               CaptureGinHandler (testRuntime 0) ⟨some "GET /"⟩ (panicking (.int 42)) TestMain],
          d.2 = .returned () ∧
          d.1.out = TestMain.out
            ++ sinkTasks TestMain (primaryText TestMain e (some "GET /"))
                 (stackSnippet (some "goroutine 1\n") true)
            ++ [.httpError e.Error 500]) ∧
      (HTTPRecoveryMiddleware (fun _ => panicking (.int 42)) (testRuntime 0) ⟨some "GET /"⟩
        TestMain).2 = .returned () ∧
      (HTTPRecoveryMiddleware (fun _ => panicking (.int 42)) (testRuntime 0) ⟨some "GET /"⟩
        TestMain).1.out =
        TestMain.out ++ [.stderrPanic e, .printStack]
          ++ sinkTasks TestMain (primaryText TestMain e (some "GET /"))
               (stackSnippet (some "goroutine 1\n") true)
          ++ [.httpError e.Error 500]) ∧
    CaptureHandler (fun _ => panicking (.int 42)) (testRuntime 0) ⟨some "GET /"⟩ TestMain =
      ({ TestMain with
          cb := some ⟨3, 2, Minute, .closed, 1, 0, 0, 0⟩,
          out := [.go .signalListener,
                  .go (.fileSink "example" "[development] *Unknown error* ```GET /``` "
                        "```\ngoroutine 1\n```"),
                  .httpError "Unknown error" 500] },
       .returned ()) :=
  ⟨http_decorators_recover_while_closed (testRuntime 0) ⟨some "GET /"⟩ [] (.int 42) TestMain
      TestMain (breaker.New 3 2 (Minute * 1)) (fun _ => panicking (.int 42))
      (fun _ _ => panicking (.int 42)) (panicking (.int 42)) rfl rfl rfl rfl rfl,
   by decide⟩

/-! ## C2: the fault normaliser -/

/-- Claim C2.  `recovery` maps no value to no error, a string `t` to the error `errors.New t`
whose message is `t`, an error to itself, and every other value to an error whose message is
`"Unknown error"`. -/
theorem recovery_normalises :
    recovery none = none ∧
    (∀ t : String, recovery (some (.string t)) = some (errors.New t) ∧ (errors.New t).Error = t) ∧
    (∀ e : GoError, recovery (some (.error e)) = some e) ∧
    (∀ v : Value, (∀ t, v ≠ .string t) → (∀ e, v ≠ .error e) →
      recovery (some v) = some (errors.New "Unknown error") ∧
      (errors.New "Unknown error").Error = "Unknown error") := by
  refine ⟨rfl, fun t => ⟨rfl, rfl⟩, fun e => rfl, ?_⟩
  intro v hs he
  cases v with
  | string t => exact absurd rfl (hs t)
  | error e => exact absurd rfl (he e)
  | int n => exact ⟨rfl, rfl⟩
  | other typ repr => exact ⟨rfl, rfl⟩

/-- The value 42 is neither a string nor an error, and is normalised to `"Unknown error"`. -/
theorem recovery_normalises_witness :
    recovery (some (.int 42)) = some (errors.New "Unknown error") ∧
    (errors.New "Unknown error").Error = "Unknown error" :=
  recovery_normalises.2.2.2 (.int 42) (fun _ h => by cases h) (fun _ h => by cases h)

/-! ## C5: the primary text -/

theorem length_pos_iff_ne_empty (t : String) : t.length > 0 ↔ t ≠ "" := by
  constructor
  · intro h e
    subst e
    simp at h
  · intro h
    rcases t with ⟨l⟩
    cases l with
    | nil => exact absurd rfl h
    | cons a l => simp [String.length]

/-- Claim C5.  With environment label `E = s.env`, message `M = errs.Error`, tag string
`T = s.tagString`, banner `B = s.customMessage` and optional snapshot `R`, the primary text of
`publishError` is `[E] *M*`, then ` | T` iff `T` is not empty, then newline, `B`, newline iff
`B` is not empty, then, iff a snapshot is present, a space, the snapshot between two fences of
three backticks, and a space.  This text is what `publishError` hands to every enabled
sink.  With empty tags, no banner and snapshot `R` it is `[E] *M* `, the fenced `R`, and a
space. -/
theorem publishError_primary_text (rt : Runtime) (s : State) (errs : GoError)
    (R : Option String) (withStackTrace : Bool) :
    primaryText s errs R =
      "[" ++ s.env ++ "] *" ++ errs.Error ++ "*"
        ++ (if s.tagString ≠ "" then " | " ++ s.tagString else "")
        ++ (if s.customMessage ≠ "" then "\n" ++ s.customMessage ++ "\n" else "")
        ++ (match R with
            | some snapshot => " ```" ++ snapshot ++ "``` "
            | none => "") ∧
    (publishError rt errs R withStackTrace s).out =
      s.out ++ sinkTasks s (primaryText s errs R) (stackSnippet rt.stack withStackTrace) ∧
    (∀ snapshot : String, s.tagString = "" → s.customMessage = "" →
      primaryText s errs (some snapshot) =
        "[" ++ s.env ++ "] *" ++ errs.Error ++ "* ```" ++ snapshot ++ "``` ") := by
  refine ⟨?_, rfl, ?_⟩
  · unfold primaryText
    by_cases hT : s.tagString = "" <;> by_cases hB : s.customMessage = "" <;>
      cases R <;>
      simp [hT, hB, (length_pos_iff_ne_empty s.tagString).mpr, String.append_assoc]
  · intro snapshot hT hB
    have glue : ∀ x : String, "*" ++ (" ```" ++ x) = "* ```" ++ x := fun x => by
      rw [← String.append_assoc]
      rfl
    simp [primaryText, hT, hB, String.append_assoc, glue]

/-- On the state of `TestMain` (environment `development`, no tags, no banner) the primary text
for the error `error` with snapshot `message 1`. -/
theorem publishError_primary_text_witness :
    primaryText TestMain (errors.New "error") (some "message 1") =
      "[" ++ TestMain.env ++ "] *" ++ (errors.New "error").Error ++ "* ```" ++ "message 1"
        ++ "``` " ∧
    primaryText TestMain (errors.New "error") (some "message 1") =
      "[development] *error* ```message 1``` " :=
  ⟨(publishError_primary_text (testRuntime 0) TestMain (errors.New "error") none false).2.2
      "message 1" rfl rfl,
   by decide⟩

/-! ## C6: `CaptureWithStackTrace` and the log file -/

theorem foldl_enumFrom_succ (ds : List String) (n : Nat) (acc : String) :
    (ds.enumFrom (n + 1)).foldl
      (fun tmp iv => if iv.1 = 0 then tmp ++ iv.2 else tmp ++ ("\n\n" ++ iv.2)) acc
    = String.intercalate.go acc "\n\n" ds := by
  induction ds generalizing n acc with
  | nil => rfl
  | cons d ds ih => simp [List.enumFrom, ih, String.intercalate.go, String.append_assoc]

/-- The loop of `Capture` joins the details with a blank line between them. -/
theorem joinMessage_eq (ds : List String) : joinMessage ds = "\n\n".intercalate ds := by
  cases ds with
  | nil => rfl
  | cons d ds =>
    simp [joinMessage, List.enum, List.enumFrom, String.intercalate, foldl_enumFrom_succ]

theorem firstLine_append (l rest : String) (h : oneLine l) :
    firstLine (l ++ "\n" ++ rest) = l := by
  unfold firstLine
  have hd : (l ++ "\n" ++ rest).data = l.data ++ ('\n' :: rest.data) := by
    simp [String.data_append]
  rw [hd, List.takeWhile_append_of_pos]
  · simp
  · intro c hc
    simpa using h c hc

theorem oneLine_append (a b : String) (ha : oneLine a) (hb : oneLine b) : oneLine (a ++ b) := by
  intro c hc
  simp only [String.data_append, List.mem_append] at hc
  rcases hc with hc | hc
  · exact ha c hc
  · exact hb c hc

/-- Claim C6, amended.  With empty tag string, no banner, the file sink enabled, a stack dump
`st` and a log file that can be opened, `CaptureWithStackTrace(e, ds...)` passes as snapshot
the details joined by a blank line, starts the file goroutine with the primary text
`[E] *e* `, the fenced joined details and a space, and with the snippet made of three
backticks, a newline, `st` and three backticks; the goroutine appends text, snippet and
`\r\n` to `<filepath>/panics.log`.  When `E` and `e` hold no newline, the first line of that
record is `[E] *e* `, six backticks, a space and three backticks for no detail, and
`[E] *e* `, the fenced `d`, a space and three backticks for one detail `d` without newline. -/
theorem CaptureWithStackTrace_file_record (rt : Runtime) (st e : String) (ds : List String)
    (s : State) (fs : FileSystem)
    (hT : s.tagString = "") (hB : s.customMessage = "") (hF : s.filepath ≠ "")
    (hst : rt.stack = some st) (hopen : fs.refuses (s.filepath ++ "/panics.log") = false) :
    joinMessage ds = "\n\n".intercalate ds ∧
    CaptureWithStackTrace rt e ds s
      = publishError rt (errors.New e) (some ("\n\n".intercalate ds)) true s ∧
    (CaptureWithStackTrace rt e ds s).out =
      s.out ++ sinkTasks s ("[" ++ s.env ++ "] *" ++ e ++ "* ```" ++ "\n\n".intercalate ds ++ "``` ")
                 ("```\n" ++ st ++ "```") ∧
    Effect.go (.fileSink s.filepath
        ("[" ++ s.env ++ "] *" ++ e ++ "* ```" ++ "\n\n".intercalate ds ++ "``` ")
        ("```\n" ++ st ++ "```")) ∈ (CaptureWithStackTrace rt e ds s).out ∧
    (fileSink s.filepath
        ("[" ++ s.env ++ "] *" ++ e ++ "* ```" ++ "\n\n".intercalate ds ++ "``` ")
        ("```\n" ++ st ++ "```") fs).files (s.filepath ++ "/panics.log") =
      fs.files (s.filepath ++ "/panics.log")
        ++ ("[" ++ s.env ++ "] *" ++ e ++ "* ```" ++ "\n\n".intercalate ds ++ "``` "
            ++ ("```\n" ++ st ++ "```") ++ "\r\n") ∧
    (oneLine s.env → oneLine e →
      firstLine ("[" ++ s.env ++ "] *" ++ e ++ "* ```" ++ "\n\n".intercalate [] ++ "``` "
                  ++ ("```\n" ++ st ++ "```") ++ "\r\n")
        = "[" ++ s.env ++ "] *" ++ e ++ "* `````` ```" ∧
      ∀ d : String, oneLine d →
        firstLine ("[" ++ s.env ++ "] *" ++ e ++ "* ```" ++ "\n\n".intercalate [d] ++ "``` "
                    ++ ("```\n" ++ st ++ "```") ++ "\r\n")
          = "[" ++ s.env ++ "] *" ++ e ++ "* ```" ++ d ++ "``` ```") := by
  have glue : ∀ x : String, "*" ++ (" ```" ++ x) = "* ```" ++ x := fun x => by
    rw [← String.append_assoc]
    rfl
  have htext : primaryText s (errors.New e) (some ("\n\n".intercalate ds)) =
      "[" ++ s.env ++ "] *" ++ e ++ "* ```" ++ "\n\n".intercalate ds ++ "``` " := by
    simp [primaryText, hT, hB, String.append_assoc, glue, errors.New, GoError.Error]
  have hout : (CaptureWithStackTrace rt e ds s).out =
      s.out ++ sinkTasks s ("[" ++ s.env ++ "] *" ++ e ++ "* ```" ++ "\n\n".intercalate ds ++ "``` ")
                 ("```\n" ++ st ++ "```") := by
    simp only [CaptureWithStackTrace, publishError, joinMessage_eq, htext, hst, stackSnippet]
    simp
  refine ⟨joinMessage_eq ds, ?_, hout, ?_, ?_, ?_⟩
  · simp [CaptureWithStackTrace, joinMessage_eq]
  · rw [hout]
    simp [sinkTasks, hF]
  · simp [fileSink, hopen, FileSystem.write, String.append_assoc]
  · intro hE he
    have hpre : oneLine ("[" ++ s.env ++ "] *" ++ e) :=
      oneLine_append _ _ (oneLine_append _ _ (oneLine_append _ _ (by decide) hE) (by decide)) he
    constructor
    · have hl : oneLine ("[" ++ s.env ++ "] *" ++ e ++ "* `````` ```") :=
        oneLine_append _ _ hpre (by decide)
      have hsplit : "[" ++ s.env ++ "] *" ++ e ++ "* ```" ++ "\n\n".intercalate [] ++ "``` "
            ++ ("```\n" ++ st ++ "```") ++ "\r\n"
          = ("[" ++ s.env ++ "] *" ++ e ++ "* `````` ```") ++ "\n" ++ (st ++ "```" ++ "\r\n") := by
        apply String.ext
        simp [String.data_append, String.intercalate]
      rw [hsplit]
      exact firstLine_append _ _ hl
    · intro d hd
      have hl : oneLine ("[" ++ s.env ++ "] *" ++ e ++ "* ```" ++ d ++ "``` ```") :=
        oneLine_append _ _ (oneLine_append _ _ (oneLine_append _ _ hpre (by decide)) hd)
          (by decide)
      have hsplit : "[" ++ s.env ++ "] *" ++ e ++ "* ```" ++ "\n\n".intercalate [d] ++ "``` "
            ++ ("```\n" ++ st ++ "```") ++ "\r\n"
          = ("[" ++ s.env ++ "] *" ++ e ++ "* ```" ++ d ++ "``` ```") ++ "\n"
              ++ (st ++ "```" ++ "\r\n") := by
        apply String.ext
        simp [String.data_append, String.intercalate, String.intercalate.go]
      rw [hsplit]
      exact firstLine_append _ _ hl

/-- The third case of `TestCaptureWithStackTrace` on the state of `TestMain`: the record
appended to `example/panics.log`, and the first lines for no detail and for one detail. -/
theorem CaptureWithStackTrace_file_record_witness :
    (TestMain.tagString = "" ∧ TestMain.customMessage = "" ∧ TestMain.filepath ≠ "" ∧
      oneLine TestMain.env ∧ oneLine "multiple errors" ∧ oneLine "message 1") ∧
    (fileSink "example" "[development] *multiple errors* ```message 1\n\nmessage 2``` "
        "```\ngoroutine 1\n```" emptyDisk).files "example/panics.log" =
      "" ++ ("[development] *multiple errors* ```message 1\n\nmessage 2``` "
              ++ "```\ngoroutine 1\n```" ++ "\r\n") ∧
    firstLine ("[development] *multiple errors* `````` " ++ "```\ngoroutine 1\n```" ++ "\r\n")
      = "[development] *multiple errors* `````` ```" ∧
    firstLine ("[development] *multiple errors* ```message 1``` " ++ "```\ngoroutine 1\n```"
                ++ "\r\n")
      = "[development] *multiple errors* ```message 1``` ```" :=
  ⟨by decide,
   (CaptureWithStackTrace_file_record (testRuntime 0) "goroutine 1\n" "multiple errors"
      ["message 1", "message 2"] TestMain emptyDisk rfl rfl (by decide) rfl rfl).2.2.2.2.1,
   ((CaptureWithStackTrace_file_record (testRuntime 0) "goroutine 1\n" "multiple errors"
      ["message 1", "message 2"] TestMain emptyDisk rfl rfl (by decide) rfl rfl).2.2.2.2.2
        (by decide) (by decide)).1,
   ((CaptureWithStackTrace_file_record (testRuntime 0) "goroutine 1\n" "multiple errors"
      ["message 1", "message 2"] TestMain emptyDisk rfl rfl (by decide) rfl rfl).2.2.2.2.2
        (by decide) (by decide)).2 "message 1" (by decide)⟩

/-- Claim C6 fails when the error string holds a newline: for `e` made of `a`, a newline and
`b`, on the state of `TestMain` and with no detail, the file goroutine is started with the text
and snippet shown, and the first line of what it appends to `example/panics.log` is
`[development] *a`, not the text the claim gives. -/
theorem CaptureWithStackTrace_first_line_counterexample :
    (CaptureWithStackTrace (testRuntime 0) "a\nb" [] TestMain).out =
      TestMain.out ++ [.go (.fileSink "example" "[development] *a\nb* `````` "
                              "```\ngoroutine 1\n```")] ∧
    firstLine ((fileSink "example" "[development] *a\nb* `````` " "```\ngoroutine 1\n```"
                  emptyDisk).files "example/panics.log") = "[development] *a" ∧
    firstLine ((fileSink "example" "[development] *a\nb* `````` " "```\ngoroutine 1\n```"
                  emptyDisk).files "example/panics.log")
      ≠ "[" ++ "development" ++ "] *" ++ "a\nb" ++ "* `````` ```" := by
  decide

/-! ## C3: the breaker opens after three panics -/

theorem recoveryBreak_closed (rt : Runtime) (s : State) (b : Breaker) (hcb : s.cb = some b)
    (hb : b.state = .closed) : recoveryBreak rt s = (s, false) := by
  have hrun : b.Run rt.now (fun _ => none) = (b, none) := by
    simp [Breaker.Run, Breaker.timer, Breaker.doWork, hb]
  simp only [recoveryBreak, hcb, hrun]
  cases s
  simp_all

theorem panicRecover_closed (rt : Runtime) (s : State) (b : Breaker) (v : Value) (e : GoError)
    (hcb : s.cb = some b) (hb : b.state = .closed) (he : recovery (some v) = some e) :
    panicRecover rt (some v) s =
      ({ s with cb := some (b.processResult rt.now (some e)) }, some e) := by
  have hrun : b.Run rt.now (fun _ => recovery (some v))
      = (b.processResult rt.now (some e), some e) := by
    simp [Breaker.Run, Breaker.timer, Breaker.doWork, hb, he]
  simp only [panicRecover, hcb, hrun]

theorem invokePanicking_closed (sh : Shape) (rt : Runtime) (r : Request)
    (recoveryFn : Func Unit) (v : Value) (s : State) (b : Breaker)
    (hr : ∀ s, (recoveryFn s).1.cb = s.cb) (hcb : s.cb = some b) (hb : b.state = .closed) :
    ∃ e, recovery (some v) = some e ∧
      (sh.invokePanicking rt r recoveryFn v s).1.cb = some (b.processResult rt.now (some e)) := by
  obtain ⟨e, he⟩ := recovery_some v
  have h1 := recoveryBreak_closed rt s b hcb hb
  have h2 := panicRecover_closed rt s b v e hcb hb he
  refine ⟨e, he, ?_⟩
  cases sh
  case goroutine =>
    simp only [Shape.invokePanicking, CaptureGoroutine, panicking, h1, recover, h2]
    simp only [Bool.not_false, if_true]
    split <;> rename_i heq <;>
    · have h3 := hr (publishError rt e none true
        (({ s with cb := some (b.processResult rt.now (some e)) } : State).emit
          (.stderrPanic e) |>.emit .printStack))
      rw [heq] at h3
      simpa [publishError, State.emit] using h3
  all_goals
    simp [Shape.invokePanicking, CaptureHandler, CaptureHTTPRouterHandler,
      CaptureNegroniHandler, CaptureGinHandler, HTTPRecoveryMiddleware, UnaryServerInterceptor,
      panicking, h1, recover, h2, publishError, http.Error, State.emit]

theorem invokePanicking_tripped (sh : Shape) (rt : Runtime) (r : Request)
    (recoveryFn : Func Unit) (v : Value) (s : State) (h : s.tripped rt.now = true) :
    sh.invokePanicking rt r recoveryFn v s = (s, some v) := by
  have h1 := recoveryBreak_tripped rt s h
  cases sh <;>
    simp [Shape.invokePanicking, CaptureHandler, CaptureHTTPRouterHandler,
      CaptureNegroniHandler, CaptureGinHandler, CaptureGoroutine, HTTPRecoveryMiddleware,
      UnaryServerInterceptor, panicking, h1, Outcome.escaped]

/-- Claim C3, amended.  Start from a state whose breaker is the one `init` attaches (error
threshold 3, success threshold 2, open duration one minute), closed with no recorded failure.
Invoke three times one decorated handler of any breaker-consulting shape whose inner handler
raises, each invocation at most one minute after the one before.  Then the breaker is open; on
a fourth invocation that comes before the open duration has passed (less than one minute after
the third) `recoveryBreak` answers true, the state is left as it was (no `recover`, nothing
published) and the raised value escapes to the caller.  The callback of the background-task
shape is assumed not to change the breaker. -/
theorem breaker_opens_after_three_panics (sh : Shape) (r : Request) (recoveryFn : Func Unit)
    (rt1 rt2 rt3 rt4 : Runtime) (v1 v2 v3 v4 : Value) (s0 : State)
    (hr : ∀ s, (recoveryFn s).1.cb = s.cb)
    (h0 : s0.cb = some (breaker.New 3 2 (Minute * 1)))
    (h12 : rt2.now ≤ rt1.now + Minute) (h23 : rt3.now ≤ rt2.now + Minute)
    (h34 : rt4.now < rt3.now + Minute) :
    (∃ b, (sh.afterPanics r recoveryFn [(rt1, v1), (rt2, v2), (rt3, v3)] s0).cb = some b ∧
      b.state = .open_) ∧
    recoveryBreak rt4 (sh.afterPanics r recoveryFn [(rt1, v1), (rt2, v2), (rt3, v3)] s0)
      = (sh.afterPanics r recoveryFn [(rt1, v1), (rt2, v2), (rt3, v3)] s0, true) ∧
    sh.invokePanicking rt4 r recoveryFn v4
        (sh.afterPanics r recoveryFn [(rt1, v1), (rt2, v2), (rt3, v3)] s0)
      = (sh.afterPanics r recoveryFn [(rt1, v1), (rt2, v2), (rt3, v3)] s0, some v4) := by
  obtain ⟨e1, -, hc1⟩ := invokePanicking_closed sh rt1 r recoveryFn v1 s0 _ hr h0 rfl
  have hb1 : (breaker.New 3 2 (Minute * 1)).processResult rt1.now (some e1)
      = ⟨3, 2, Minute, .closed, 1, 0, rt1.now, 0⟩ := by
    simp [breaker.New, Breaker.processResult]
  rw [hb1] at hc1
  obtain ⟨e2, -, hc2⟩ := invokePanicking_closed sh rt2 r recoveryFn v2 _ _ hr hc1 rfl
  have hb2 : (⟨3, 2, Minute, .closed, 1, 0, rt1.now, 0⟩ : Breaker).processResult rt2.now (some e2)
      = ⟨3, 2, Minute, .closed, 2, 0, rt2.now, 0⟩ := by
    simp [Breaker.processResult, Nat.not_lt.mpr h12]
  rw [hb2] at hc2
  obtain ⟨e3, -, hc3⟩ := invokePanicking_closed sh rt3 r recoveryFn v3 _ _ hr hc2 rfl
  have hb3 : (⟨3, 2, Minute, .closed, 2, 0, rt2.now, 0⟩ : Breaker).processResult rt3.now (some e3)
      = ⟨3, 2, Minute, .open_, 0, 0, rt2.now, rt3.now⟩ := by
    simp [Breaker.processResult, Nat.not_lt.mpr h23, Breaker.openBreaker, Breaker.changeState]
  rw [hb3] at hc3
  have hs3 : sh.afterPanics r recoveryFn [(rt1, v1), (rt2, v2), (rt3, v3)] s0
      = (sh.invokePanicking rt3 r recoveryFn v3 (sh.invokePanicking rt2 r recoveryFn v2
          (sh.invokePanicking rt1 r recoveryFn v1 s0).1).1).1 := rfl
  rw [hs3]
  have htr : State.tripped (sh.invokePanicking rt3 r recoveryFn v3
      (sh.invokePanicking rt2 r recoveryFn v2
        (sh.invokePanicking rt1 r recoveryFn v1 s0).1).1).1 rt4.now = true := by
    simp [State.tripped, hc3, Breaker.isOpen, h34]
  exact ⟨⟨_, hc3, rfl⟩, recoveryBreak_tripped rt4 _ htr,
    invokePanicking_tripped sh rt4 r recoveryFn v4 _ htr⟩

/-- The background-task decorator with the closures of `TestCaptureGoroutine`, on the state of
`TestMain`, the three panics ten seconds apart: the fourth panic escapes. -/
theorem breaker_opens_after_three_panics_witness :
    ((∃ b, (Shape.goroutine.afterPanics ⟨none⟩ testRecoveryFn
        [(testRuntime 0, .string "panic here"), (testRuntime 10000000000, .string "panic here"),
         (testRuntime 20000000000, .string "panic here")] TestMain).cb = some b ∧
      b.state = .open_) ∧
    recoveryBreak (testRuntime 30000000000) (Shape.goroutine.afterPanics ⟨none⟩ testRecoveryFn
        [(testRuntime 0, .string "panic here"), (testRuntime 10000000000, .string "panic here"),
         (testRuntime 20000000000, .string "panic here")] TestMain)
      = (Shape.goroutine.afterPanics ⟨none⟩ testRecoveryFn
        [(testRuntime 0, .string "panic here"), (testRuntime 10000000000, .string "panic here"),
         (testRuntime 20000000000, .string "panic here")] TestMain, true) ∧
    Shape.goroutine.invokePanicking (testRuntime 30000000000) ⟨none⟩ testRecoveryFn
        (.string "panic here")
        (Shape.goroutine.afterPanics ⟨none⟩ testRecoveryFn
          [(testRuntime 0, .string "panic here"), (testRuntime 10000000000, .string "panic here"),
           (testRuntime 20000000000, .string "panic here")] TestMain)
      = (Shape.goroutine.afterPanics ⟨none⟩ testRecoveryFn
          [(testRuntime 0, .string "panic here"), (testRuntime 10000000000, .string "panic here"),
           (testRuntime 20000000000, .string "panic here")] TestMain,
         some (.string "panic here"))) ∧
    (Shape.goroutine.afterPanics ⟨none⟩ testRecoveryFn
        [(testRuntime 0, .string "panic here"), (testRuntime 10000000000, .string "panic here"),
         (testRuntime 20000000000, .string "panic here")] TestMain).cb
      = some ⟨3, 2, Minute, .open_, 0, 0, 10000000000, 20000000000⟩ :=
  ⟨breaker_opens_after_three_panics Shape.goroutine ⟨none⟩ testRecoveryFn (testRuntime 0)
      (testRuntime 10000000000) (testRuntime 20000000000) (testRuntime 30000000000)
      (.string "panic here") (.string "panic here") (.string "panic here")
      (.string "panic here") TestMain (fun _ => rfl) rfl (by decide) (by decide) (by decide),
   by decide⟩

/-- Claim C3 fails when the fourth invocation comes once the open duration has passed.  On the
state of `TestMain`, after three recovered panics at 0, 10 and 20 seconds the breaker is open;
at 80 seconds, one minute after the third panic, it is half-open: `recoveryBreak` answers
false, and the fourth panic of `CaptureGoroutine` is recovered, printed, handed to the file
sink and followed by the recovery callback; nothing escapes to the caller. -/
theorem breaker_half_open_counterexample :
    (Shape.goroutine.afterPanics ⟨none⟩ testRecoveryFn
        [(testRuntime 0, .string "panic here"), (testRuntime 10000000000, .string "panic here"),
         (testRuntime 20000000000, .string "panic here")] TestMain).cb
      = some ⟨3, 2, Minute, .open_, 0, 0, 10000000000, 20000000000⟩ ∧
    (recoveryBreak (testRuntime 80000000000)
      (Shape.goroutine.afterPanics ⟨none⟩ testRecoveryFn
        [(testRuntime 0, .string "panic here"), (testRuntime 10000000000, .string "panic here"),
         (testRuntime 20000000000, .string "panic here")] TestMain)).2 = false ∧
    (CaptureGoroutine (panicking (.string "panic here")) testRecoveryFn (testRuntime 80000000000)
      (Shape.goroutine.afterPanics ⟨none⟩ testRecoveryFn
        [(testRuntime 0, .string "panic here"), (testRuntime 10000000000, .string "panic here"),
         (testRuntime 20000000000, .string "panic here")] TestMain)).2 = .returned () ∧
    (CaptureGoroutine (panicking (.string "panic here")) testRecoveryFn (testRuntime 80000000000)
      (Shape.goroutine.afterPanics ⟨none⟩ testRecoveryFn
        [(testRuntime 0, .string "panic here"), (testRuntime 10000000000, .string "panic here"),
         (testRuntime 20000000000, .string "panic here")] TestMain)).1.out =
      (Shape.goroutine.afterPanics ⟨none⟩ testRecoveryFn
        [(testRuntime 0, .string "panic here"), (testRuntime 10000000000, .string "panic here"),
         (testRuntime 20000000000, .string "panic here")] TestMain).out ++
        [.stderrPanic (errors.New "panic here"), .printStack,
         .go (.fileSink "example" "[development] *panic here*" "```\ngoroutine 1\n```"),
         .user "recoveryFnCalledTimes++"] ∧
    Shape.goroutine.invokePanicking (testRuntime 80000000000) ⟨none⟩ testRecoveryFn
        (.string "panic here")
        (Shape.goroutine.afterPanics ⟨none⟩ testRecoveryFn
          [(testRuntime 0, .string "panic here"), (testRuntime 10000000000, .string "panic here"),
           (testRuntime 20000000000, .string "panic here")] TestMain)
      ≠ (Shape.goroutine.afterPanics ⟨none⟩ testRecoveryFn
          [(testRuntime 0, .string "panic here"), (testRuntime 10000000000, .string "panic here"),
           (testRuntime 20000000000, .string "panic here")] TestMain,
         some (.string "panic here")) := by
  decide

/-! ## C4: a tripped breaker at the handler's exit -/

/-- The seven decorators that call `recoveryBreak` skip the recovery path when the breaker is
open at the inner handler's exit: the state is left as the inner handler left it (nothing is
handed to a sink) and the outcome of the inner handler, a panic included, is the outcome of
the decorated handler. -/
theorem gated_decorators_skip_recovery_when_tripped (rt : Runtime) (r : Request)
    (ps : List (String × String)) (req : String) (s s1 : State)
    (o : Outcome Unit) (ou : Outcome (Option String × Option GoError))
    (h : Request → Func Unit) (hp : Request → List (String × String) → Func Unit)
    (next recoveryFn : Func Unit) (handler : String → Func (Option String × Option GoError))
    (hh : h r s = (s1, o)) (hhp : hp r ps s = (s1, o)) (hn : next s = (s1, o))
    (hu : handler req s = (s1, ou)) (htr : s1.tripped rt.now = true) :
    CaptureHandler h rt r s = (s1, o) ∧
    CaptureHTTPRouterHandler hp rt r ps s = (s1, o) ∧
    CaptureNegroniHandler rt r h s = (s1, o) ∧
    CaptureGinHandler rt r next s = (s1, o) ∧
    CaptureGoroutine next recoveryFn rt s = (s1, o) ∧
    HTTPRecoveryMiddleware h rt r s = (s1, o) ∧
    UnaryServerInterceptor rt req handler s = (s1, ou) := by
  have h1 := recoveryBreak_tripped rt s1 htr
  refine ⟨?_, ?_, ?_, ?_, ?_, ?_, ?_⟩
  · simp [CaptureHandler, hh, h1]
  · simp [CaptureHTTPRouterHandler, hhp, h1]
  · simp [CaptureNegroniHandler, hh, h1]
  · simp [CaptureGinHandler, hn, h1]
  · simp [CaptureGoroutine, hn, h1]
  · simp [HTTPRecoveryMiddleware, hh, h1]
  · simp [UnaryServerInterceptor, hu, h1]

/-- Claim C4 fails for `CaptureNSQConsumer`, which does not call `recoveryBreak`.  After three
recovered panics the breaker is open (`recoveryBreak` answers true); on the fourth message
the decorated consumer still calls `recover`: a handler that raises `"boom"` returns nil to
its caller, and the breaker's refusal `circuit breaker is open` is handed to the file sink;
the same refusal is published when the handler returns nil without raising. -/
theorem CaptureNSQConsumer_recovers_while_open :
    nsqAfterThreePanics.tripped 30000000000 = true ∧
    recoveryBreak (testRuntime 30000000000) nsqAfterThreePanics = (nsqAfterThreePanics, true) ∧
    CaptureNSQConsumer nsqPanics (testRuntime 30000000000) "m4" nsqAfterThreePanics =
      ({ nsqAfterThreePanics with
          out := nsqAfterThreePanics.out ++
            [.go (.fileSink "example" "[development] *circuit breaker is open*"
                    "```\ngoroutine 1\n```")] },
       .returned none) ∧
    CaptureNSQConsumer nsqSucceeds (testRuntime 30000000000) "m4" nsqAfterThreePanics =
      ({ nsqAfterThreePanics with
          out := nsqAfterThreePanics.out ++
            [.go (.fileSink "example" "[development] *circuit breaker is open*"
                    "```\ngoroutine 1\n```")] },
       .returned none) := by
  decide

/-! ## C7: the background-task decorator -/

/-- With the gate not tripped and a raised value `v`, `CaptureGoroutine` prints the panic,
publishes the normalised error and then calls the recovery callback, whose outcome is the
outcome of the call. -/
theorem CaptureGoroutine_not_tripped (handleFn recoveryFn : Func Unit) (rt : Runtime)
    (s s1 : State) (v : Value) (hh : handleFn s = (s1, .panicked v))
    (htr : s1.tripped rt.now = false) :
    ∃ c e, recovery (some v) = some e ∧
      CaptureGoroutine handleFn recoveryFn rt s =
        match recoveryFn { s1 with
            cb := c,
            out := s1.out ++ [.stderrPanic e, .printStack]
                     ++ sinkTasks s1 (primaryText s1 e none) (stackSnippet rt.stack true) } with
        | (s2, .returned _) => (s2, .returned ())
        | (s2, .panicked w) => (s2, .panicked w) := by
  obtain ⟨e, he⟩ := recovery_some v
  obtain ⟨c1, h1, h2⟩ := gate_not_tripped rt s1 htr
  obtain ⟨c2, h3⟩ := h2 (some v)
  rw [he] at h3
  refine ⟨c2, e, he, ?_⟩
  simp [CaptureGoroutine, hh, h1, h3, recover, publishError, State.emit, primaryText, sinkTasks]

/-- When the work function returns, `CaptureGoroutine` returns, changing at most the
breaker. -/
theorem CaptureGoroutine_returned (handleFn : Func Unit) (rt : Runtime)
    (s s1 : State) (hh : handleFn s = (s1, .returned ())) :
    ∃ c, ∀ callback : Func Unit,
      CaptureGoroutine handleFn callback rt s = ({ s1 with cb := c }, .returned ()) := by
  cases htr : s1.tripped rt.now
  · obtain ⟨c1, h1, h2⟩ := gate_not_tripped rt s1 htr
    obtain ⟨c2, h3⟩ := h2 none
    refine ⟨c2, fun callback => ?_⟩
    simp [CaptureGoroutine, hh, h1, h3, recover, recovery]
  · have h1 := recoveryBreak_tripped rt s1 htr
    refine ⟨s1.cb, fun callback => ?_⟩
    simp [CaptureGoroutine, hh, h1]

/-- Claim C7, amended.  `CaptureGoroutine` runs the work function once, on the state it is
called in.  If the work function returns, the call returns and the result is the same for
every recovery callback: the callback is not invoked.  If it raises `v` and the breaker is
not open at its exit, standard error gets the panic and the stack, the normalised error of
`v` is handed to the enabled sinks, and then the callback is invoked once, on the state that
holds these effects.  If it raises `v` and the breaker is open, the call ends as the work
function did: `v` escapes and the callback is not invoked. -/
theorem CaptureGoroutine_callback (handleFn recoveryFn : Func Unit) (rt : Runtime)
    (s s1 : State) (o : Outcome Unit) (hh : handleFn s = (s1, o)) :
    (o = .returned () →
      ∃ c, ∀ callback : Func Unit,
        CaptureGoroutine handleFn callback rt s = ({ s1 with cb := c }, .returned ())) ∧
    (∀ v, o = .panicked v → s1.tripped rt.now = false →
      ∃ c e, recovery (some v) = some e ∧
        CaptureGoroutine handleFn recoveryFn rt s =
          match recoveryFn { s1 with
              cb := c,
              out := s1.out ++ [.stderrPanic e, .printStack]
                       ++ sinkTasks s1 (primaryText s1 e none) (stackSnippet rt.stack true) } with
          | (s2, .returned _) => (s2, .returned ())
          | (s2, .panicked w) => (s2, .panicked w)) ∧
    (∀ v, o = .panicked v → s1.tripped rt.now = true →
      ∀ callback : Func Unit,
        CaptureGoroutine handleFn callback rt s = (s1, .panicked v)) := by
  refine ⟨?_, ?_, ?_⟩
  · intro ho
    subst ho
    exact CaptureGoroutine_returned handleFn rt s s1 hh
  · intro v ho htr
    subst ho
    exact CaptureGoroutine_not_tripped handleFn recoveryFn rt s s1 v hh htr
  · intro v ho htr callback
    subst ho
    have h1 := recoveryBreak_tripped rt s1 htr
    simp [CaptureGoroutine, hh, h1]

/-- The second case of `TestCaptureGoroutine` on the state of `TestMain`: the work function
is counted once, then the panic is printed, `[development] *panic here*` goes to the file
sink, and then the callback is counted once. -/
theorem CaptureGoroutine_callback_witness :
    (∃ c e, recovery (some (.string "panic here")) = some e ∧
      CaptureGoroutine testHandleFnPanic testRecoveryFn (testRuntime 0) TestMain =
        match testRecoveryFn { TestMain.emit (.user "handleFnCalledTimes++") with
            cb := c,
            out := (TestMain.emit (.user "handleFnCalledTimes++")).out
                     ++ [.stderrPanic e, .printStack]
                     ++ sinkTasks (TestMain.emit (.user "handleFnCalledTimes++"))
                          (primaryText (TestMain.emit (.user "handleFnCalledTimes++")) e none)
                          (stackSnippet (testRuntime 0).stack true) } with
        | (s2, .returned _) => (s2, .returned ())
        | (s2, .panicked w) => (s2, .panicked w)) ∧
    (CaptureGoroutine testHandleFnPanic testRecoveryFn (testRuntime 0) TestMain).1.out =
      [.go .signalListener, .user "handleFnCalledTimes++",
       .stderrPanic (errors.New "panic here"), .printStack,
       .go (.fileSink "example" "[development] *panic here*" "```\ngoroutine 1\n```"),
       .user "recoveryFnCalledTimes++"] ∧
    (CaptureGoroutine testHandleFn testRecoveryFn (testRuntime 0) TestMain).1.out =
      [.go .signalListener, .user "handleFnCalledTimes++"] :=
  ⟨(CaptureGoroutine_callback testHandleFnPanic testRecoveryFn (testRuntime 0) TestMain
      (TestMain.emit (.user "handleFnCalledTimes++")) (.panicked (.string "panic here")) rfl).2.1
      (.string "panic here") rfl (by decide),
   by decide, by decide⟩

/-- Claim C7 fails when the breaker is open.  After three recovered panics, within the open
duration, the work function of the test raises `"panic here"`: it has run once, the recovery
callback has not run, nothing is published and the panic escapes. -/
theorem CaptureGoroutine_callback_counterexample :
    goroutineAfterThreePanics.tripped 30000000000 = true ∧
    testHandleFnPanic goroutineAfterThreePanics =
      (goroutineAfterThreePanics.emit (.user "handleFnCalledTimes++"),
       .panicked (.string "panic here")) ∧
    CaptureGoroutine testHandleFnPanic testRecoveryFn (testRuntime 30000000000)
        goroutineAfterThreePanics =
      ({ goroutineAfterThreePanics with out := [.user "handleFnCalledTimes++"] },
       .panicked (.string "panic here")) ∧
    Effect.user "recoveryFnCalledTimes++" ∉
      (CaptureGoroutine testHandleFnPanic testRecoveryFn (testRuntime 30000000000)
        goroutineAfterThreePanics).1.out := by
  decide

/-! ## C8: the detached breaker -/

theorem SetOptions_cb (o : Options) (s : State) :
    (SetOptions o s).cb = if o.DontLetMeDie then none else s.cb := by
  unfold SetOptions CaptureBadDeployment
  cases o.DontLetMeDie <;> cases s.capturedBadDeployment <;> simp [State.emit]

/-- Claim C8.  `SetOptions` with `DontLetMeDie` set detaches the breaker, and no later
`SetOptions` or `CaptureBadDeployment` attaches one.  In every state `s` with the breaker
detached, whatever the runtime answers: `recoveryBreak` answers false, `panicRecover` returns
what `recovery` returns, both leaving the state as it is; and when an inner handler raises
`v` and leaves the state `s`, each of the eight decorators recovers it: the HTTP-shaped ones,
the queue consumer and the RPC interceptor return (nil results for the last two), and the
background-task decorator ends as its recovery callback does. -/
theorem detached_breaker_always_recovers (o : Options) (s0 : State)
    (hd : o.DontLetMeDie = true) :
    (SetOptions o s0).cb = none ∧
    ∀ s : State, s.cb = none →
      (∀ o2 : Options, (SetOptions o2 s).cb = none) ∧
      (CaptureBadDeployment s).cb = none ∧
      ∀ rt : Runtime,
        recoveryBreak rt s = (s, false) ∧
        (∀ rc, panicRecover rt rc s = (s, recovery rc)) ∧
        ∀ (v : Value) (entry : State) (r : Request) (ps : List (String × String))
          (msg : String),
          (∀ h : Request → Func Unit, h r entry = (s, .panicked v) →
            (CaptureHandler h rt r entry).2 = .returned () ∧
            (CaptureNegroniHandler rt r h entry).2 = .returned () ∧
            (HTTPRecoveryMiddleware h rt r entry).2 = .returned ()) ∧
          (∀ hp : Request → List (String × String) → Func Unit,
            hp r ps entry = (s, .panicked v) →
            (CaptureHTTPRouterHandler hp rt r ps entry).2 = .returned ()) ∧
          (∀ next : Func Unit, next entry = (s, .panicked v) →
            (CaptureGinHandler rt r next entry).2 = .returned ()) ∧
          (∀ handler : String → Func (Option GoError), handler msg entry = (s, .panicked v) →
            (CaptureNSQConsumer handler rt msg entry).2 = .returned none) ∧
          (∀ handler : String → Func (Option String × Option GoError),
            handler msg entry = (s, .panicked v) →
            (UnaryServerInterceptor rt msg handler entry).2 = .returned (none, none)) ∧
          (∀ handleFn recoveryFn : Func Unit, handleFn entry = (s, .panicked v) →
            ∃ e, recovery (some v) = some e ∧
              (CaptureGoroutine handleFn recoveryFn rt entry).2.escaped =
                (recoveryFn { s with
                    out := s.out ++ [.stderrPanic e, .printStack]
                      ++ sinkTasks s (primaryText s e none) (stackSnippet rt.stack true) }).2.escaped)
    := by
  refine ⟨by simp [SetOptions_cb, hd], ?_⟩
  intro s hs
  have hrb : ∀ rt : Runtime, recoveryBreak rt s = (s, false) := fun rt => by
    simp [recoveryBreak, hs]
  have hpr : ∀ (rt : Runtime) rc, panicRecover rt rc s = (s, recovery rc) := fun rt rc => by
    simp [panicRecover, hs]
  refine ⟨fun o2 => by simp [SetOptions_cb, hs], ?_, ?_⟩
  · unfold CaptureBadDeployment
    cases s.capturedBadDeployment <;> simp [State.emit, hs]
  intro rt
  refine ⟨hrb rt, hpr rt, ?_⟩
  intro v entry r ps msg
  obtain ⟨e, he⟩ := recovery_some v
  refine ⟨?_, ?_, ?_, ?_, ?_, ?_⟩
  · intro h hh
    refine ⟨?_, ?_, ?_⟩
    · simp [CaptureHandler, hh, hrb, hpr, recover, he]
    · simp [CaptureNegroniHandler, hh, hrb, hpr, recover, he]
    · simp [HTTPRecoveryMiddleware, hh, hrb, hpr, recover, he]
  · intro hp hh
    simp [CaptureHTTPRouterHandler, hh, hrb, hpr, recover, he]
  · intro next hh
    simp [CaptureGinHandler, hh, hrb, hpr, recover, he]
  · intro handler hh
    simp [CaptureNSQConsumer, hh, hpr, recover, he]
  · intro handler hh
    simp [UnaryServerInterceptor, hh, hrb, hpr, recover, he]
  · intro handleFn recoveryFn hh
    refine ⟨e, he, ?_⟩
    have key : publishError rt e none true ((s.emit (.stderrPanic e)).emit .printStack) =
        { s with
            out := s.out ++ [.stderrPanic e, .printStack]
              ++ sinkTasks s (primaryText s e none) (stackSnippet rt.stack true) } := by
      simp [publishError, State.emit, sinkTasks, primaryText]
    simp only [CaptureGoroutine, hh, hrb, hpr, recover, he, Bool.not_false, if_true, key]
    generalize recoveryFn _ = res
    rcases res with ⟨s2, a | w⟩ <;> rfl

/-- The state of `TestMain` reinstalled with `DontLetMeDie`: the breaker is detached and the
panic `"panic here"` of the test is recovered by `CaptureHandler`. -/
theorem detached_breaker_always_recovers_witness :
    (SetOptions { Options.zero with Env := "development", DontLetMeDie := true } TestMain).cb
      = none ∧
    (CaptureHandler (fun _ => testHandleFnPanic) (testRuntime 0) ⟨none⟩
      (SetOptions { Options.zero with Env := "development", DontLetMeDie := true } TestMain)).2
      = .returned () :=
  ⟨(detached_breaker_always_recovers
      { Options.zero with Env := "development", DontLetMeDie := true } TestMain rfl).1,
   (((((detached_breaker_always_recovers
      { Options.zero with Env := "development", DontLetMeDie := true } TestMain rfl).2
      ((SetOptions { Options.zero with Env := "development", DontLetMeDie := true }
          TestMain).emit (.user "handleFnCalledTimes++")) rfl).2.2 (testRuntime 0)).2.2
      (.string "panic here")
      (SetOptions { Options.zero with Env := "development", DontLetMeDie := true } TestMain)
      ⟨none⟩ [] "").1 (fun _ => testHandleFnPanic) rfl).1⟩

/-! ## C9: the deployment-failure listener is started once -/

theorem CaptureBadDeployment_flag (s : State) :
    (CaptureBadDeployment s).capturedBadDeployment = true := by
  unfold CaptureBadDeployment
  cases h : s.capturedBadDeployment <;> simp [State.emit, h]

theorem CaptureBadDeployment_listeners (s : State) :
    listenersStarted (CaptureBadDeployment s) =
      listenersStarted s + (if s.capturedBadDeployment then 0 else 1) := by
  unfold CaptureBadDeployment listenersStarted
  cases h : s.capturedBadDeployment <;> simp [State.emit, h]

theorem InstallCall.run_flag (c : InstallCall) (s : State) :
    (c.run s).capturedBadDeployment = true := by
  cases c with
  | setOptions o => exact CaptureBadDeployment_flag _
  | captureBadDeployment => exact CaptureBadDeployment_flag _

theorem InstallCall.run_listeners (c : InstallCall) (s : State) :
    listenersStarted (c.run s) =
      listenersStarted s + (if s.capturedBadDeployment then 0 else 1) := by
  cases c with
  | setOptions o =>
    simp only [InstallCall.run, SetOptions]
    rw [CaptureBadDeployment_listeners]
    cases o.DontLetMeDie <;> rfl
  | captureBadDeployment => exact CaptureBadDeployment_listeners s

theorem runCalls_of_flag (cs : List InstallCall) (s : State)
    (h : s.capturedBadDeployment = true) :
    listenersStarted (runCalls cs s) = listenersStarted s ∧
    (runCalls cs s).capturedBadDeployment = true := by
  induction cs generalizing s with
  | nil => exact ⟨rfl, h⟩
  | cons c cs ih =>
    have h1 := ih (c.run s) (c.run_flag s)
    have h2 := c.run_listeners s
    simp only [h, if_true, Nat.add_zero] at h2
    exact ⟨by simpa [runCalls, h2] using h1.1, by simpa [runCalls] using h1.2⟩

/-- Claim C9.  From a state in which the flag `capturedBadDeployment` is not set (as at load),
every sequence of one or more `SetOptions` / `CaptureBadDeployment` calls, with whatever
options, starts the listener goroutine exactly once: the first call starts it and sets the
flag, and after any further calls `later` the number of listeners started is the same and the
flag is still set; so after the whole sequence `c :: cs` one listener more is running than
before it. -/
theorem listener_started_once (c : InstallCall) (cs : List InstallCall) (s : State)
    (h : s.capturedBadDeployment = false) :
    listenersStarted (c.run s) = listenersStarted s + 1 ∧
    (c.run s).capturedBadDeployment = true ∧
    (∀ later : List InstallCall,
      listenersStarted (runCalls later (c.run s)) = listenersStarted (c.run s) ∧
      (runCalls later (c.run s)).capturedBadDeployment = true) ∧
    listenersStarted (runCalls (c :: cs) s) = listenersStarted s + 1 ∧
    (runCalls (c :: cs) s).capturedBadDeployment = true := by
  have h1 : listenersStarted (c.run s) = listenersStarted s + 1 := by
    rw [c.run_listeners s, h]
    rfl
  have h2 := runCalls_of_flag cs (c.run s) (c.run_flag s)
  refine ⟨h1, c.run_flag s, fun later => runCalls_of_flag later _ (c.run_flag s), ?_, ?_⟩
  · have : runCalls (c :: cs) s = runCalls cs (c.run s) := rfl
    rw [this, h2.1, h1]
  · exact h2.2

/-- From the state at load: `SetOptions` twice with the record of `TestMain`, then
`CaptureBadDeployment`; one listener has been started. -/
theorem listener_started_once_witness :
    (init "").capturedBadDeployment = false ∧
    listenersStarted (init "") = 0 ∧
    listenersStarted (runCalls
      [.setOptions { Options.zero with Env := "development", Filepath := "example" },
       .setOptions { Options.zero with Env := "development", Filepath := "example" },
       .captureBadDeployment] (init "")) = listenersStarted (init "") + 1 :=
  ⟨rfl, rfl,
   (listener_started_once
      (.setOptions { Options.zero with Env := "development", Filepath := "example" })
      [.setOptions { Options.zero with Env := "development", Filepath := "example" },
       .captureBadDeployment] (init "") rfl).2.2.2.1⟩

/-! ## C10: the environment label -/

theorem primaryText_begins (s : State) (errs : GoError) (R : Option String) :
    ∃ rest : String, primaryText s errs R = "[" ++ s.env ++ "]" ++ rest := by
  have glue : ∀ x : String, "] *" ++ x = "]" ++ (" *" ++ x) := fun x => by
    rw [← String.append_assoc]
    rfl
  unfold primaryText
  by_cases hT : s.tagString.length > 0 <;> by_cases hB : s.customMessage = "" <;>
    cases R <;> simp only [hT, hB, if_true, if_false, ne_eq, not_true_eq_false,
      not_false_eq_true, String.append_assoc, glue] <;> exact ⟨_, rfl⟩

/-- Claim C10, amended.  `init` seeds the environment label from `TKPENV`, and until
`SetOptions` is called every primary text begins with `[`, the value of `TKPENV`, `]`.  Every
`SetOptions` call replaces the label by the `Env` of its options, also when that is empty: from
then on every primary text begins with `[`, that `Env`, `]`. -/
theorem env_label_follows_SetOptions (TKPENV : String) (o : Options) (s : State)
    (errs : GoError) (R : Option String) :
    (init TKPENV).env = TKPENV ∧
    (∃ rest : String, primaryText (init TKPENV) errs R = "[" ++ TKPENV ++ "]" ++ rest) ∧
    (SetOptions o s).env = o.Env ∧
    (∃ rest : String, primaryText (SetOptions o s) errs R = "[" ++ o.Env ++ "]" ++ rest) := by
  have henv : (SetOptions o s).env = o.Env := by
    unfold SetOptions CaptureBadDeployment
    cases o.DontLetMeDie <;> cases s.capturedBadDeployment <;> simp [State.emit]
  refine ⟨rfl, primaryText_begins (init TKPENV) errs R, henv, ?_⟩
  have h := primaryText_begins (SetOptions o s) errs R
  rw [henv] at h
  exact h

/-- Claim C10 fails: loaded with `TKPENV=production`, after `SetOptions` with empty `Env` (and
`Filepath: "example"`) the label is empty, and the text `Capture("error")` hands to the file
sink begins with `[]`, not with `[production]`. -/
theorem env_label_counterexample :
    (init "production").env = "production" ∧
    (SetOptions { Options.zero with Filepath := "example" } (init "production")).env = "" ∧
    (Capture (testRuntime 0) "error" []
        (SetOptions { Options.zero with Filepath := "example" } (init "production"))).out =
      [.go .signalListener, .go (.fileSink "example" "[] *error* `````` " "")] ∧
    firstLine "[] *error* `````` " ≠ firstLine "[production] *error* `````` " := by
  decide

end Panics
